import Mathlib

/-!
Shallow embedding of the stepper-motor control subsystem of the
SeniorProject repository (src/control/stepper_control.py and
src/control_2/stepper_control.py), together with proofs about the
spec claims concerning it.

Two slightly divergent controller variants exist in the repository:

* `Control`  — src/control/stepper_control.py: has a pre-move limit-switch
  refusal check and a pre-homing "already home" check; raises ValueError
  from `_steps_for_distance_cm` when TRAVEL_PER_REV_CM is unset or ≤ 0.
* `Control2` — src/control_2/stepper_control.py: supports a direction
  polarity and a microstepping multiplier, but has no pre-move or
  pre-homing checks; silently computes a fallback travel-per-revolution
  from belt pitch and pulley teeth when TRAVEL_PER_REV_CM is unset or ≤ 0.

Python machine floats are modelled by ℚ; Python's `round` (banker's
rounding, round-half-to-even) is modelled by `pyRound`.
-/

/-- Python's `round` on a rational: nearest integer, ties to even. -/
def pyRound (q : ℚ) : ℤ :=
  if q - ⌊q⌋ < 1/2 then ⌊q⌋
  else if (1 : ℚ)/2 < q - ⌊q⌋ then ⌊q⌋ + 1
  else if Even ⌊q⌋ then ⌊q⌋ else ⌊q⌋ + 1

theorem pyRound_ge_floor (q : ℚ) : ⌊q⌋ ≤ pyRound q := by
  unfold pyRound; split_ifs <;> omega

theorem pyRound_le_floor_add_one (q : ℚ) : pyRound q ≤ ⌊q⌋ + 1 := by
  unfold pyRound; split_ifs <;> omega

theorem pyRound_zero : pyRound 0 = 0 := by
  norm_num [pyRound]

theorem pyRound_nonneg {q : ℚ} (h : 0 ≤ q) : 0 ≤ pyRound q := by
  have h0 : (0 : ℤ) ≤ ⌊q⌋ := Int.floor_nonneg.mpr h
  have := pyRound_ge_floor q
  omega

theorem pyRound_mono {x y : ℚ} (h : x ≤ y) : pyRound x ≤ pyRound y := by
  have hf : ⌊x⌋ ≤ ⌊y⌋ := Int.floor_le_floor h
  rcases eq_or_lt_of_le hf with heq | hlt
  · -- same floor: compare fractional parts
    have hfr : x - ⌊x⌋ ≤ y - ⌊y⌋ := by
      rw [← heq]; linarith
    unfold pyRound
    rw [← heq]
    split_ifs <;> first | omega | linarith
  · calc pyRound x ≤ ⌊x⌋ + 1 := pyRound_le_floor_add_one x
      _ ≤ ⌊y⌋ := by omega
      _ ≤ pyRound y := pyRound_ge_floor y

/-! ## Data model shared by both controller variants -/

/-- A limit-switch side label ("Left"/"Right" in the source). -/
inductive Side
  | left
  | right
deriving DecidableEq, Repr

/-- The label string used by `make_cb`. -/
def sideLabel : Side → String
  | .left => "Left"
  | .right => "Right"

/-- The message written to `_stopped_reason` by the limit-switch callback. -/
def safetyMsg (s : Side) : String :=
  "[SAFETY] " ++ sideLabel s ++ " switch triggered → motion stopped."

/-- The "status" field of the dict returned by move_steps. -/
inductive MoveStatus
  | ok
  | stopped
deriving DecidableEq, Repr

/-- The dict `{"status": ..., "which": ...}` returned by move_steps. -/
structure MoveResult where
  status : MoveStatus
  which : Option Side
deriving DecidableEq, Repr

/-- GPIO pin assignment of one `_StepperControlPigpio` instance
(`limitLeft`/`limitRight` are `None`-able, as in the constructor). -/
structure Pins where
  stepPin : ℕ
  dirPin : ℕ
  limitLeft : Option ℕ
  limitRight : Option ℕ
deriving DecidableEq, Repr

/-- The configuration attributes consumed by either stepper module
(src/config.py; a `none` models an attribute the `getattr` default fills in).
`MICROSTEPPING` is absent from src/config.py, so its `getattr` default 1 is
recorded directly. -/
structure StepperConfig where
  spacing : ℚ             -- CHANNEL_SPACING_CM
  travelPerRev : Option ℚ -- TRAVEL_PER_REV_CM (None when the attribute is absent)
  beltPitchMm : ℚ         -- BELT_PITCH_MM
  pulleyTeeth : ℚ         -- PULLEY_TEETH
  stepsPerRev : ℤ         -- STEPPER_STEPS_PER_REV
  microstepping : ℤ       -- MICROSTEPPING (getattr default 1)
  stepDelay : ℚ           -- STEPPER_STEP_DELAY_S
  stepPin : ℕ             -- STEPPER_STEP_PIN
  dirPin : ℕ              -- STEPPER_DIR_PIN
  limitSwitchLeft : Option ℕ   -- LIMIT_SWITCH_PIN_LEFT
  limitSwitchRight : Option ℕ  -- LIMIT_SWITCH_PIN_RIGHT
deriving DecidableEq, Repr

/-- The values defined in src/config.py: CHANNEL_SPACING_CM = 19,
TRAVEL_PER_REV_CM = (20 * 2) / 10 = 4, BELT_PITCH_MM = 2, PULLEY_TEETH = 20,
STEPPER_STEPS_PER_REV = 200, MICROSTEPPING absent (default 1),
STEPPER_STEP_DELAY_S = 0.0008. -/
def repoConfig : StepperConfig :=
  { spacing := 19, travelPerRev := some 4, beltPitchMm := 2, pulleyTeeth := 20,
    stepsPerRev := 200, microstepping := 1, stepDelay := 8/10000,
    stepPin := 6, dirPin := 5,
    limitSwitchLeft := some 17, limitSwitchRight := some 27 }

/-- The pin assignment in src/config.py: STEP 6, DIR 5, switches 17 and 27. -/
def repoPins : Pins :=
  { stepPin := 6, dirPin := 5, limitLeft := some 17, limitRight := some 27 }

/-! ## Limit-switch callback state (`_install_callbacks` / `make_cb`),
identical in both variants. -/

/-- The mutable state the callbacks touch: `wave_tx_busy` (whether the
transmission is still running), `_stopped_reason`, `_stopped_which`. -/
structure CbState where
  txBusy : Bool
  stoppedReason : Option String
  stoppedWhich : Option Side
deriving DecidableEq, Repr

/-- `_cb(gpio, level, tick)` produced by `make_cb(label)`: on a level-0
(falling/active-LOW) event, stop the wave if busy, then record the reason
and side only if no reason is recorded yet. -/
def cbFire (label : Side) (level : ℕ) (st : CbState) : CbState :=
  if level = 0 then
    let st1 := if st.txBusy then { st with txBusy := false } else st
    if st1.stoppedReason = none then
      { st1 with stoppedReason := some (safetyMsg label),
                 stoppedWhich := some label }
    else st1
  else st

/-- The sides whose callbacks `_install_callbacks` registers: Left when the
left pin is wired, then Right when the right pin is wired — both of them,
for every motion call, with no dependence on the travel direction. -/
def armedSides (c : Pins) : List Side :=
  (if c.limitLeft.isSome then [Side.left] else []) ++
  (if c.limitRight.isSome then [Side.right] else [])

/-- Deliver a sequence of edge events `(side, level)` to the installed
callbacks.  Only a side whose callback was registered (its pin is wired)
can fire. -/
def runCallbacks (c : Pins) (events : List (Side × ℕ)) (st : CbState) : CbState :=
  events.foldl (fun s e => if e.1 ∈ armedSides c then cbFire e.1 e.2 s else s) st

/-- A switch that is already LOW (active) when a motion call starts delivers
no further FALLING edge during the call while it stays pressed: pigpio edge
callbacks fire on transitions only.  An event list is consistent with the
initial pin levels when every falling event comes from a switch that
started HIGH. -/
def eventsConsistent (lv : Side → ℕ) (events : List (Side × ℕ)) : Prop :=
  ∀ e ∈ events, e.2 = 0 → lv e.1 ≠ 0

/-! ## Pulse waveform engine (`_build_period_wave`), identical in both
variants. -/

/-- One pigpio pulse: `pigpio.pulse(gpio_on, gpio_off, delay_us)`. -/
structure Pulse where
  gpioOn : ℕ
  gpioOff : ℕ
  delayUs : ℤ
deriving DecidableEq, Repr

/-- `us = max(2, int(round(half_period_s * 1_000_000)))` — the clamped HIGH
(and LOW) half-period in microseconds (DRV8825 needs ≥ ~1.9 µs HIGH). -/
def clampedHalfPeriodUs (halfPeriodS : ℚ) : ℤ :=
  max 2 (pyRound (halfPeriodS * 1000000))

/-- `_build_period_wave(half_period_s)`: the wave added via
`wave_add_generic` (HIGH on the step pin for `us`, then LOW for `us`),
paired with `us`.  The source returns a numeric handle `wid` standing for
exactly this wave; we return the wave's content in its place. -/
def buildPeriodWave (stepPin : ℕ) (halfPeriodS : ℚ) : List Pulse × ℤ :=
  let us := clampedHalfPeriodUs halfPeriodS
  ([⟨2 ^ stepPin, 0, us⟩, ⟨0, 2 ^ stepPin, us⟩], us)

/-- `freq_exact = 1_000_000.0 / (2.0 * us)` as computed in move_steps
(and `freq_hz` in move_to_channel / move_back, which recompute the same
clamped `us` from the configured step delay). -/
def freqExact (halfPeriodS : ℚ) : ℚ :=
  1000000 / (2 * (clampedHalfPeriodUs halfPeriodS : ℚ))

/-! ## Hardware-call traces

A motion call is modelled as the sequence of pigpio calls it performs,
driven by an environment `Scenario`: which edge events the callback thread
delivers while the call waits for the transmission, whether the wait is
interrupted by an exception (e.g. KeyboardInterrupt), and whether
`wave_create` fails. -/

/-- One observable pigpio call made by a motion routine. -/
inductive HwOp
  | write (pin : ℕ) (v : ℕ)      -- pi.write
  | readPin (pin : ℕ)            -- pi.read
  | installCallbacks             -- _install_callbacks (pi.callback × armed sides)
  | clearCallbacks               -- _clear_callbacks (cb.cancel)
  | waveClear                    -- pi.wave_clear
  | waveAddGeneric (pulses : List Pulse)  -- pi.wave_add_generic
  | waveCreate (ok : Bool)       -- pi.wave_create (ok = handle obtained, wid ≥ 0)
  | waveChain (count : ℕ)        -- pi.wave_chain repeating the wave `count` times
  | waveSendRepeat               -- pi.wave_send_repeat
  | waveTxStop                   -- pi.wave_tx_stop
  | waveDelete                   -- pi.wave_delete on the wave built by this call
deriving DecidableEq, Repr

/-- The environment of one motion call. -/
structure Scenario where
  events : List (Side × ℕ)  -- edge events delivered while waiting for the wave
  interrupted : Bool        -- an exception hits the wait loop (e.g. Ctrl+C)
  createFails : Bool        -- pi.wave_create returns wid < 0
deriving DecidableEq, Repr

/-- The initial callback state of a motion call once transmission starts:
wave busy, no stop reason, no side (reset in `_install_callbacks`). -/
def initialCbState : CbState := ⟨true, none, none⟩

namespace Control2

/-! ### src/control_2/stepper_control.py -/

/-- `_set_dir(forward)`: forward → DIR LOW (0), backward → DIR HIGH (1);
inverted when `_dir_polarity < 0` (the constructor normalises the polarity
to ±1 via `1 if dir_polarity >= 0 else -1`). -/
def setDirLogical (dirPolarity : ℤ) (forward : Bool) : ℕ :=
  let logical := if forward then 0 else 1
  if dirPolarity < 0 then logical ^^^ 1 else logical

/-- `move_steps(steps, step_delay)` of control_2: no limit pre-check.
Zero steps returns ok before any hardware call.  Otherwise: set DIR,
install both callbacks, build the wave, `wave_chain` it |steps| times,
wait; the `finally` block stops a still-busy wave, cancels the callbacks
and deletes the wave on every exit path.  Returns the trace of pigpio
calls and the result (`Except.error` models a propagated exception). -/
def moveSteps (c : Pins) (pol : ℤ) (steps : ℤ) (stepDelay : ℚ) (sc : Scenario) :
    List HwOp × Except String MoveResult :=
  if steps = 0 then ([], .ok ⟨.ok, none⟩)
  else
    let forward := decide (0 ≤ steps)
    let head : List HwOp :=
      [.write c.dirPin (setDirLogical pol forward), .installCallbacks,
       .waveClear, .waveAddGeneric (buildPeriodWave c.stepPin stepDelay).1,
       .waveCreate (!sc.createFails)]
    if sc.createFails then
      -- RuntimeError("Failed to create waveform") raised before the try block
      (head, .error "Failed to create waveform")
    else
      let st := runCallbacks c sc.events initialCbState
      let busyAtFinally := sc.interrupted && st.txBusy
      let trace := head ++ [HwOp.waveChain steps.natAbs] ++
        (if busyAtFinally then [HwOp.waveTxStop] else []) ++
        [HwOp.clearCallbacks, HwOp.waveDelete]
      if sc.interrupted then (trace, .error "KeyboardInterrupt")
      else if st.stoppedReason.isSome then (trace, .ok ⟨.stopped, st.stoppedWhich⟩)
      else (trace, .ok ⟨.ok, none⟩)

/-- `home(step_delay)` of control_2: no "already active" pre-check.  Sets
DIR backward, installs both callbacks, builds the wave and
`wave_send_repeat`s it; the wait loop ends only when a callback stops the
wave or an exception interrupts it — with neither, the call never returns
(`none`). -/
def home (c : Pins) (pol : ℤ) (stepDelay : ℚ) (sc : Scenario) :
    Option (List HwOp × Except String Unit) :=
  let head : List HwOp :=
    [.write c.dirPin (setDirLogical pol false), .installCallbacks,
     .waveClear, .waveAddGeneric (buildPeriodWave c.stepPin stepDelay).1,
     .waveCreate (!sc.createFails)]
  if sc.createFails then
    some (head, .error "Failed to create waveform")
  else
    let st := runCallbacks c sc.events initialCbState
    if !sc.interrupted && st.txBusy then
      none  -- the repeating wave is never stopped: wave_tx_busy stays true
    else
      let busyAtFinally := sc.interrupted && st.txBusy
      let trace := head ++ [HwOp.waveSendRepeat] ++
        (if busyAtFinally then [HwOp.waveTxStop] else []) ++
        [HwOp.clearCallbacks, HwOp.waveDelete]
      if sc.interrupted then some (trace, .error "KeyboardInterrupt")
      else some (trace, .ok ())

/-- `_effective_steps_per_rev()`: STEPPER_STEPS_PER_REV × MICROSTEPPING. -/
def effectiveStepsPerRev (cfg : StepperConfig) : ℤ :=
  cfg.stepsPerRev * cfg.microstepping

/-- The travel-per-revolution actually used by `_steps_for_distance_cm` of
control_2: when TRAVEL_PER_REV_CM is absent, zero or ≤ 0 (`not
travel_per_rev_cm or travel_per_rev_cm <= 0`), fall back to
`(PULLEY_TEETH * BELT_PITCH_MM) / 10`. -/
def effectiveTravelPerRev (cfg : StepperConfig) : ℚ :=
  match cfg.travelPerRev with
  | none => cfg.pulleyTeeth * cfg.beltPitchMm / 10
  | some t => if t ≤ 0 then cfg.pulleyTeeth * cfg.beltPitchMm / 10 else t

/-- `_steps_for_distance_cm(distance_cm)` of control_2:
`int(round(distance_cm / travel_per_rev_cm * steps_per_rev))`, never an
error (the fallback replaces a bad TRAVEL_PER_REV_CM silently). -/
def stepsForDistanceCm (cfg : StepperConfig) (d : ℚ) : ℤ :=
  pyRound (d / effectiveTravelPerRev cfg * effectiveStepsPerRev cfg)

/-- `distance_cm = spacing * max(0, int(channel) - 1)` in move_to_channel. -/
def channelDistanceCm (cfg : StepperConfig) (channel : ℤ) : ℚ :=
  cfg.spacing * ((max 0 (channel - 1) : ℤ) : ℚ)

/-- The step count move_to_channel(channel) passes to move_steps. -/
def channelToSteps (cfg : StepperConfig) (channel : ℤ) : ℤ :=
  stepsForDistanceCm cfg (channelDistanceCm cfg channel)

/-- `distance_cm = max(0.0, spacing * max(0, int(channel) - 1) - 5.0)` in
move_back (leave ~5 cm for clean homing). -/
def moveBackDistanceCm (cfg : StepperConfig) (channel : ℤ) : ℚ :=
  max 0 (cfg.spacing * ((max 0 (channel - 1) : ℤ) : ℚ) - 5)

/-- The (non-negated) step count move_back computes before negating it. -/
def channelToReturnSteps (cfg : StepperConfig) (channel : ℤ) : ℤ :=
  stepsForDistanceCm cfg (moveBackDistanceCm cfg channel)

/-- `move_to_channel(channel)`: compute steps from the channel distance and
delegate to move_steps with the configured step delay. -/
def moveToChannel (cfg : StepperConfig) (c : Pins) (pol : ℤ) (channel : ℤ)
    (sc : Scenario) : List HwOp × Except String MoveResult :=
  moveSteps c pol (channelToSteps cfg channel) cfg.stepDelay sc

/-- `move_back(channel)`: compute the return steps and pass their negation
(`-steps`) to move_steps. -/
def moveBack (cfg : StepperConfig) (c : Pins) (pol : ℤ) (channel : ℤ)
    (sc : Scenario) : List HwOp × Except String MoveResult :=
  moveSteps c pol (-(channelToReturnSteps cfg channel)) cfg.stepDelay sc

end Control2

namespace Control

/-! ### src/control/stepper_control.py -/

/-- The pre-move refusal check of control's move_steps (lines 126-132):
moving forward reads the right switch, moving backward reads the left
switch (Python `and` short-circuits, so no read happens when the side's
pin is `None`).  Returns the reads performed and the refusal result, if
any. -/
def preCheck (c : Pins) (lv : Side → ℕ) (forward : Bool) :
    List HwOp × Option MoveResult :=
  if forward then
    match c.limitRight with
    | some p =>
        if lv Side.right = 0 then ([.readPin p], some ⟨.stopped, some .right⟩)
        else ([.readPin p], none)
    | none => ([], none)
  else
    match c.limitLeft with
    | some p =>
        if lv Side.left = 0 then ([.readPin p], some ⟨.stopped, some .left⟩)
        else ([.readPin p], none)
    | none => ([], none)

/-- `move_steps(steps, step_delay)` of control: zero steps is an immediate
ok; then the pre-move refusal check; then DIR is written directly
(`1 if forward else 0` — note this is the opposite convention to
control_2's `_set_dir` at default polarity), both callbacks installed, the
wave built and chained |steps| times, with the same finally block as
control_2. `lv` gives the current (debounced) level of each switch pin. -/
def moveSteps (c : Pins) (lv : Side → ℕ) (steps : ℤ) (stepDelay : ℚ)
    (sc : Scenario) : List HwOp × Except String MoveResult :=
  if steps = 0 then ([], .ok ⟨.ok, none⟩)
  else
    let forward := decide (0 ≤ steps)
    let pre := preCheck c lv forward
    match pre.2 with
    | some r => (pre.1, .ok r)
    | none =>
      let head : List HwOp := pre.1 ++
        [.write c.dirPin (if forward then 1 else 0), .installCallbacks,
         .waveClear, .waveAddGeneric (buildPeriodWave c.stepPin stepDelay).1,
         .waveCreate (!sc.createFails)]
      if sc.createFails then
        (head, .error "Failed to create waveform")
      else
        let st := runCallbacks c sc.events initialCbState
        let busyAtFinally := sc.interrupted && st.txBusy
        let trace := head ++ [HwOp.waveChain steps.natAbs] ++
          (if busyAtFinally then [HwOp.waveTxStop] else []) ++
          [HwOp.clearCallbacks, HwOp.waveDelete]
        if sc.interrupted then (trace, .error "KeyboardInterrupt")
        else if st.stoppedReason.isSome then (trace, .ok ⟨.stopped, st.stoppedWhich⟩)
        else (trace, .ok ⟨.ok, none⟩)

/-- The pre-homing check of control's home (lines 172-179): read the left
then the right switch (skipping `None` pins); the first one read LOW ends
homing immediately. -/
def homePreCheck (c : Pins) (lv : Side → ℕ) : List HwOp × Option Side :=
  match c.limitLeft, c.limitRight with
  | some p, some q =>
      if lv Side.left = 0 then ([.readPin p], some .left)
      else if lv Side.right = 0 then ([.readPin p, .readPin q], some .right)
      else ([.readPin p, .readPin q], none)
  | some p, none =>
      if lv Side.left = 0 then ([.readPin p], some .left) else ([.readPin p], none)
  | none, some q =>
      if lv Side.right = 0 then ([.readPin q], some .right) else ([.readPin q], none)
  | none, none => ([], none)

/-- `home(step_delay)` of control: if either wired switch is already LOW,
return immediately with no motion; otherwise write DIR low, install both
callbacks, build the wave and `wave_send_repeat` it until a callback stops
it or an exception interrupts the wait (with neither the call never
returns, `none`), then run the same finally block. -/
def home (c : Pins) (lv : Side → ℕ) (stepDelay : ℚ) (sc : Scenario) :
    Option (List HwOp × Except String Unit) :=
  let pre := homePreCheck c lv
  match pre.2 with
  | some _ => some (pre.1, .ok ())
  | none =>
    let head : List HwOp := pre.1 ++
      [.write c.dirPin 0, .installCallbacks,
       .waveClear, .waveAddGeneric (buildPeriodWave c.stepPin stepDelay).1,
       .waveCreate (!sc.createFails)]
    if sc.createFails then
      some (head, .error "Failed to create waveform")
    else
      let st := runCallbacks c sc.events initialCbState
      if !sc.interrupted && st.txBusy then
        none
      else
        let busyAtFinally := sc.interrupted && st.txBusy
        let trace := head ++ [HwOp.waveSendRepeat] ++
          (if busyAtFinally then [HwOp.waveTxStop] else []) ++
          [HwOp.clearCallbacks, HwOp.waveDelete]
        if sc.interrupted then some (trace, .error "KeyboardInterrupt")
        else some (trace, .ok ())

/-- `_steps_for_distance_cm(distance_cm)` of control: raises
`ValueError("TRAVEL_PER_REV_CM must be defined and > 0 in config_2.py")`
when TRAVEL_PER_REV_CM is absent, zero or ≤ 0, else
`int(round(distance_cm / travel_per_rev_cm * steps_per_rev))` (no
microstepping multiplier in this variant). -/
def stepsForDistanceCm (cfg : StepperConfig) (d : ℚ) : Except String ℤ :=
  match cfg.travelPerRev with
  | none => .error "TRAVEL_PER_REV_CM must be defined and > 0 in config_2.py"
  | some t =>
      if t ≤ 0 then .error "TRAVEL_PER_REV_CM must be defined and > 0 in config_2.py"
      else .ok (pyRound (d / t * cfg.stepsPerRev))

/-- `move_to_channel(channel)` of control: the distance/step conversion
happens inside the motion call, so a bad TRAVEL_PER_REV_CM surfaces as a
ValueError here, not at init time. -/
def moveToChannel (cfg : StepperConfig) (c : Pins) (lv : Side → ℕ)
    (channel : ℤ) (sc : Scenario) : List HwOp × Except String MoveResult :=
  match stepsForDistanceCm cfg (Control2.channelDistanceCm cfg channel) with
  | .error e => ([], .error e)
  | .ok steps => moveSteps c lv steps cfg.stepDelay sc

/-- `move_back(channel)` of control: same, with the 5 cm-clearance distance
and negated steps. -/
def moveBack (cfg : StepperConfig) (c : Pins) (lv : Side → ℕ)
    (channel : ℤ) (sc : Scenario) : List HwOp × Except String MoveResult :=
  match stepsForDistanceCm cfg (Control2.moveBackDistanceCm cfg channel) with
  | .error e => ([], .error e)
  | .ok steps => moveSteps c lv (-steps) cfg.stepDelay sc

end Control

/-- The pin assignment `init_stepper` extracts from the config module. -/
def cfgPins (cfg : StepperConfig) : Pins :=
  { stepPin := cfg.stepPin, dirPin := cfg.dirPin,
    limitLeft := cfg.limitSwitchLeft, limitRight := cfg.limitSwitchRight }

/-- `init_stepper()` (both variants): reads the pin numbers from config and
constructs `_StepperControlPigpio`, whose constructor only checks that the
pigpio daemon is reachable and sets up the pins.  No configuration value —
in particular TRAVEL_PER_REV_CM — is inspected or validated here. -/
def initStepper (cfg : StepperConfig) (daemonConnected : Bool) :
    Except String Pins :=
  if daemonConnected then .ok (cfgPins cfg)
  else .error "pigpio daemon not running. Start with: sudo pigpiod"

/-- The switch on the side the carriage is travelling toward: a forward
move (steps ≥ 0) travels right, toward the right switch — this is the side
the refusal check in control's move_steps reads; a backward move travels
toward the left switch. -/
def leadingSide (steps : ℤ) : Side := if 0 ≤ steps then .right else .left

/-- The switch behind the carriage for the direction of travel. -/
def trailingSide (steps : ℤ) : Side := if 0 ≤ steps then .left else .right

/-- The configured pin of the leading-side switch. -/
def leadingPin (c : Pins) (steps : ℤ) : Option ℕ :=
  match leadingSide steps with
  | .left => c.limitLeft
  | .right => c.limitRight

/-- Switch levels: both switches idle (pulled up HIGH). -/
def lvInactive : Side → ℕ := fun _ => 1

/-- Switch levels: right switch held active (LOW), left idle. -/
def lvRightActive : Side → ℕ := fun s => match s with | .left => 1 | .right => 0

/-- Switch levels: left switch held active (LOW), right idle. -/
def lvLeftActive : Side → ℕ := fun s => match s with | .left => 0 | .right => 1

/-! ## Helper lemmas -/

theorem pyRound_intCast (n : ℤ) : pyRound (n : ℚ) = n := by
  simp [pyRound]

theorem clampedHalfPeriodUs_travelDelay : clampedHalfPeriodUs (8/10000) = 800 := by
  have h : (8 : ℚ)/10000 * 1000000 = ((800 : ℤ) : ℚ) := by norm_num
  rw [clampedHalfPeriodUs, h, pyRound_intCast]; norm_num

theorem clampedHalfPeriodUs_homeDelay : clampedHalfPeriodUs (5/1000) = 5000 := by
  have h : (5 : ℚ)/1000 * 1000000 = ((5000 : ℤ) : ℚ) := by norm_num
  rw [clampedHalfPeriodUs, h, pyRound_intCast]; norm_num

/-- One callback firing never overwrites an already-recorded stop reason or
side. -/
theorem cbFire_preserves_recorded (l : Side) (lv : ℕ) (st : CbState)
    (r : String) (hr : st.stoppedReason = some r) :
    (cbFire l lv st).stoppedReason = some r ∧
    (cbFire l lv st).stoppedWhich = st.stoppedWhich := by
  unfold cbFire
  split_ifs <;> simp_all

/-- C4 — Within a single motion call, the stop cause is written with
first-write-wins semantics: once `_stopped_reason` holds a value, any
further sequence of callback firings (on either switch, at any level)
leaves both `_stopped_reason` and `_stopped_which` unchanged. -/
theorem stop_cause_first_write_wins (c : Pins) (st : CbState) (r : String)
    (hr : st.stoppedReason = some r) (evts : List (Side × ℕ)) :
    (runCallbacks c evts st).stoppedReason = some r ∧
    (runCallbacks c evts st).stoppedWhich = st.stoppedWhich := by
  induction evts generalizing st with
  | nil => exact ⟨hr, rfl⟩
  | cons e rest ih =>
      rw [runCallbacks] at *
      simp only [List.foldl_cons]
      by_cases hm : e.1 ∈ armedSides c
      · rw [if_pos hm]
        obtain ⟨h1, h2⟩ := cbFire_preserves_recorded e.1 e.2 st r hr
        obtain ⟨h3, h4⟩ := ih (cbFire e.1 e.2 st) h1
        exact ⟨h3, h4.trans h2⟩
      · rw [if_neg hm]
        exact ih st hr

/-- Witness for `stop_cause_first_write_wins`: after the Left callback has
recorded its cause, a later Right falling edge changes neither field. -/
theorem stop_cause_first_write_wins_witness :
    (runCallbacks repoPins [(Side.right, 0)]
        ⟨false, some (safetyMsg .left), some .left⟩).stoppedReason
      = some (safetyMsg .left) ∧
    (runCallbacks repoPins [(Side.right, 0)]
        ⟨false, some (safetyMsg .left), some .left⟩).stoppedWhich
      = (⟨false, some (safetyMsg .left), some .left⟩ : CbState).stoppedWhich :=
  stop_cause_first_write_wins repoPins ⟨false, some (safetyMsg .left), some .left⟩
    (safetyMsg .left) rfl [(Side.right, 0)]

/-- C1 counterexample — concrete refutation of directional masking: in a
forward move (steps = 100, so the trailing side is Left), a falling edge
on the trailing Left switch stops the transmission (the callback's
`wave_tx_stop`) and the call returns stopped with cause Left. -/
theorem trailing_switch_stops_move_counterexample :
    trailingSide 100 = Side.left ∧
    (Control2.moveSteps repoPins 1 100 (8/10000)
        ⟨[(Side.left, 0)], false, false⟩).2
      = .ok ⟨.stopped, some Side.left⟩ ∧
    (runCallbacks repoPins [(Side.left, 0)] initialCbState).txBusy = false := by
  refine ⟨by norm_num [trailingSide], ?_, ?_⟩
  · simp [Control2.moveSteps, runCallbacks, armedSides, repoPins, cbFire,
      initialCbState]
  · simp [runCallbacks, armedSides, repoPins, cbFire, initialCbState]

/-- C1 (amended) — `_install_callbacks` performs no directional masking:
on every directed move both wired switches' trip handlers are armed, and a
falling edge on the trailing-side switch during the move stops the
transmission and records that side as the stop cause. -/
theorem both_switches_armed_during_move (c : Pins) (pol steps : ℤ) (d : ℚ)
    (hl : c.limitLeft.isSome) (hr : c.limitRight.isSome) (hs : steps ≠ 0) :
    armedSides c = [Side.left, Side.right] ∧
    (Control2.moveSteps c pol steps d
        ⟨[(trailingSide steps, 0)], false, false⟩).2
      = .ok ⟨.stopped, some (trailingSide steps)⟩ := by
  have harm : armedSides c = [Side.left, Side.right] := by
    simp [armedSides, hl, hr]
  refine ⟨harm, ?_⟩
  have hmem : trailingSide steps ∈ armedSides c := by
    rw [harm]; cases h : trailingSide steps <;> simp
  simp [Control2.moveSteps, hs, runCallbacks, hmem, cbFire, initialCbState]

/-- Witness for `both_switches_armed_during_move` at a backward move. -/
theorem both_switches_armed_during_move_witness :
    armedSides repoPins = [Side.left, Side.right] ∧
    (Control2.moveSteps repoPins 1 (-50) (8/10000)
        ⟨[(trailingSide (-50), 0)], false, false⟩).2
      = .ok ⟨.stopped, some (trailingSide (-50))⟩ :=
  both_switches_armed_during_move repoPins 1 (-50) (8/10000) rfl rfl
    (by norm_num)

/-- C2 — control's move_steps refuses a move whose leading-side switch is
already active at the start of the call: it returns stopped with that side
as cause, having done nothing but read that switch's pin — no DIR write,
no callback installation, and no waveform is built or transmitted. -/
theorem move_refused_when_leading_switch_active (c : Pins) (lv : Side → ℕ)
    (steps : ℤ) (d : ℚ) (sc : Scenario) (p : ℕ)
    (hs : steps ≠ 0) (hp : leadingPin c steps = some p)
    (hl : lv (leadingSide steps) = 0) :
    Control.moveSteps c lv steps d sc
      = ([HwOp.readPin p], .ok ⟨.stopped, some (leadingSide steps)⟩) := by
  rcases le_or_lt 0 steps with hpos | hneg
  · have hlead : leadingSide steps = Side.right := by simp [leadingSide, hpos]
    rw [hlead] at hl
    have hpin : c.limitRight = some p := by
      simpa [leadingPin, hlead] using hp
    simp [Control.moveSteps, hs, Control.preCheck, hpos, hpin, hl, hlead]
  · have hlead : leadingSide steps = Side.left := by
      simp [leadingSide, not_le.mpr hneg]
    rw [hlead] at hl
    have hpin : c.limitLeft = some p := by
      simpa [leadingPin, hlead] using hp
    simp [Control.moveSteps, hs, Control.preCheck, not_le.mpr hneg, hpin, hl,
      hlead]

/-- Witness for `move_refused_when_leading_switch_active`: a forward move
with the right switch held LOW is refused with cause Right after a single
read of pin 27. -/
theorem move_refused_when_leading_switch_active_witness :
    Control.moveSteps repoPins lvRightActive 100 (8/10000) ⟨[], false, false⟩
      = ([HwOp.readPin 27], .ok ⟨.stopped, some (leadingSide 100)⟩) :=
  move_refused_when_leading_switch_active repoPins lvRightActive 100
    (8/10000) ⟨[], false, false⟩ 27 (by norm_num)
    (by norm_num [leadingPin, leadingSide, repoPins])
    (by norm_num [lvRightActive, leadingSide])

/-- C2 counterexample — control_2's move_steps has no such pre-check: with
the leading (Right) switch held active from the start (hence delivering no
falling edge), a forward move transmits its full 100-step chain and
returns ok, not stopped. -/
theorem control2_ignores_active_leading_switch :
    lvRightActive (leadingSide 100) = 0 ∧
    eventsConsistent lvRightActive [] ∧
    (Control2.moveSteps repoPins 1 100 (8/10000) ⟨[], false, false⟩).2
      = .ok ⟨.ok, none⟩ ∧
    HwOp.waveChain 100
      ∈ (Control2.moveSteps repoPins 1 100 (8/10000) ⟨[], false, false⟩).1 := by
  refine ⟨by norm_num [lvRightActive, leadingSide], by simp [eventsConsistent],
    ?_, ?_⟩
  · simp [Control2.moveSteps, runCallbacks, initialCbState]
  · simp [Control2.moveSteps, runCallbacks, initialCbState]

/-- C3 — control's home: with either wired switch already active the call
returns immediately having performed nothing but switch-pin reads (zero
motion: no DIR write, no callback installation, no wave built or sent);
with both switches inactive it arms both switches and transmits the
repeating waveform until a switch trips — with no trip and no interruption
the call keeps transmitting (never returns), and every returning run
transmitted the repeat wave. -/
theorem home_precheck_and_continuous_transmit (c : Pins) (lv : Side → ℕ)
    (d : ℚ) (sc : Scenario) (hl : c.limitLeft.isSome)
    (hr : c.limitRight.isSome) :
    ((lv Side.left = 0 ∨ lv Side.right = 0) →
      Control.home c lv d sc = some ((Control.homePreCheck c lv).1, .ok ()) ∧
      ∀ op ∈ (Control.homePreCheck c lv).1, ∃ p, op = HwOp.readPin p) ∧
    (lv Side.left ≠ 0 → lv Side.right ≠ 0 → sc.createFails = false →
      armedSides c = [Side.left, Side.right] ∧
      (sc.events = [] → sc.interrupted = false →
        Control.home c lv d sc = none) ∧
      ∀ tr res, Control.home c lv d sc = some (tr, res) →
        HwOp.waveSendRepeat ∈ tr) := by
  obtain ⟨pl, hpl⟩ := Option.isSome_iff_exists.mp hl
  obtain ⟨pr, hpr⟩ := Option.isSome_iff_exists.mp hr
  constructor
  · intro hact
    by_cases h0 : lv Side.left = 0
    · have hpre : Control.homePreCheck c lv = ([.readPin pl], some .left) := by
        simp [Control.homePreCheck, hpl, hpr, h0]
      refine ⟨by simp [Control.home, hpre], ?_⟩
      rw [hpre]
      intro op hop
      simp at hop
      exact ⟨pl, hop⟩
    · have h1 : lv Side.right = 0 := hact.resolve_left h0
      have hpre : Control.homePreCheck c lv
          = ([.readPin pl, .readPin pr], some .right) := by
        simp [Control.homePreCheck, hpl, hpr, h0, h1]
      refine ⟨by simp [Control.home, hpre], ?_⟩
      rw [hpre]
      intro op hop
      simp at hop
      rcases hop with h | h
      · exact ⟨pl, h⟩
      · exact ⟨pr, h⟩
  · intro h0 h1 hcf
    have hpre : Control.homePreCheck c lv
        = ([.readPin pl, .readPin pr], none) := by
      simp [Control.homePreCheck, hpl, hpr, h0, h1]
    refine ⟨by simp [armedSides, hl, hr], ?_, ?_⟩
    · intro hev hint
      simp [Control.home, hpre, hcf, hev, hint, runCallbacks, initialCbState]
    · intro tr res h
      simp only [Control.home, hpre, hcf] at h
      split_ifs at h
      all_goals try exact ‹False›.elim
      all_goals try exact absurd ‹false = true› Bool.false_ne_true
      all_goals
        have h2 : _ = tr := congrArg Prod.fst (Option.some_inj.mp h)
        exact h2 ▸ (by simp)

/-- The trace of a control home run with both switches initially inactive
that ends with a Left-switch trip (HOME_STEP_DELAY_S = 0.005 → us = 5000). -/
def controlHomeTraceLeftTrip : List HwOp :=
  [.readPin 17, .readPin 27, .write 5 0, .installCallbacks, .waveClear,
   .waveAddGeneric [⟨64, 0, 5000⟩, ⟨0, 64, 5000⟩], .waveCreate true,
   .waveSendRepeat, .clearCallbacks, .waveDelete]

/-- Witness for `home_precheck_and_continuous_transmit`: with both switches
inactive and a Left trip, both switches are armed and the returning trace
transmitted the repeat wave. -/
theorem home_precheck_and_continuous_transmit_witness :
    armedSides repoPins = [Side.left, Side.right] ∧
    HwOp.waveSendRepeat ∈ controlHomeTraceLeftTrip :=
  have h := (home_precheck_and_continuous_transmit repoPins lvInactive
    (5/1000) ⟨[(Side.left, 0)], false, false⟩ rfl rfl).2
    (by norm_num [lvInactive]) (by norm_num [lvInactive]) rfl
  ⟨h.1, h.2.2 controlHomeTraceLeftTrip (.ok ())
    (by simp [Control.home, Control.homePreCheck, repoPins, lvInactive,
      runCallbacks, armedSides, cbFire, initialCbState, buildPeriodWave,
      clampedHalfPeriodUs_homeDelay, controlHomeTraceLeftTrip])⟩

/-- The trace of a control_2 home run interrupted by an exception while the
repeat wave is still being transmitted. -/
def control2HomeInterruptedTrace : List HwOp :=
  [.write 5 1, .installCallbacks, .waveClear,
   .waveAddGeneric [⟨64, 0, 5000⟩, ⟨0, 64, 5000⟩], .waveCreate true,
   .waveSendRepeat, .waveTxStop, .clearCallbacks, .waveDelete]

/-- C3 counterexample — control_2's home has no pre-check: with the Left
switch already active at entry (hence no falling edge arriving), home does
not return immediately with zero motion; it transmits the repeat wave
grinding into the switch and never returns (and an interrupted run's trace
shows the wave was built and sent). -/
theorem control2_home_ignores_active_switch :
    lvLeftActive Side.left = 0 ∧
    eventsConsistent lvLeftActive [] ∧
    Control2.home repoPins 1 (5/1000) ⟨[], false, false⟩ = none ∧
    Control2.home repoPins 1 (5/1000) ⟨[], true, false⟩
      = some (control2HomeInterruptedTrace, .error "KeyboardInterrupt") ∧
    HwOp.waveSendRepeat ∈ control2HomeInterruptedTrace := by
  refine ⟨rfl, by simp [eventsConsistent], ?_, ?_,
    by simp [control2HomeInterruptedTrace]⟩
  · simp [Control2.home, runCallbacks, initialCbState]
  · simp [Control2.home, runCallbacks, initialCbState, Control2.setDirLogical,
      buildPeriodWave, clampedHalfPeriodUs_homeDelay, repoPins,
      control2HomeInterruptedTrace]

/-- src/config.py with TRAVEL_PER_REV_CM replaced by the non-positive
value 0. -/
def badTravelConfig : StepperConfig := { repoConfig with travelPerRev := some 0 }

/-- C5 (amended) — a non-positive or missing travel-per-revolution is NOT
detected at configuration/init time: init_stepper succeeds regardless of
it; in the control variant the translator raises ValueError during the
motion call (the first distance conversion), and in the control_2 variant
it silently substitutes the fallback travel (PULLEY_TEETH × BELT_PITCH_MM
/ 10) at motion time. -/
theorem travel_validation_happens_at_motion_time (cfg : StepperConfig)
    (d : ℚ)
    (hbad : cfg.travelPerRev = none ∨ ∃ t, cfg.travelPerRev = some t ∧ t ≤ 0) :
    initStepper cfg true = .ok (cfgPins cfg) ∧
    Control.stepsForDistanceCm cfg d
      = .error "TRAVEL_PER_REV_CM must be defined and > 0 in config_2.py" ∧
    Control2.effectiveTravelPerRev cfg
      = cfg.pulleyTeeth * cfg.beltPitchMm / 10 := by
  refine ⟨by simp [initStepper], ?_, ?_⟩
  all_goals
    rcases hbad with h | ⟨t, h, htle⟩
    · simp [Control.stepsForDistanceCm, Control2.effectiveTravelPerRev, h]
    · simp [Control.stepsForDistanceCm, Control2.effectiveTravelPerRev, h, htle]

/-- Witness for `travel_validation_happens_at_motion_time` at the config
with TRAVEL_PER_REV_CM = 0. -/
theorem travel_validation_happens_at_motion_time_witness :
    initStepper badTravelConfig true = .ok (cfgPins badTravelConfig) ∧
    Control.stepsForDistanceCm badTravelConfig 40
      = .error "TRAVEL_PER_REV_CM must be defined and > 0 in config_2.py" ∧
    Control2.effectiveTravelPerRev badTravelConfig
      = badTravelConfig.pulleyTeeth * badTravelConfig.beltPitchMm / 10 :=
  travel_validation_happens_at_motion_time badTravelConfig 40
    (Or.inr ⟨0, rfl, le_refl 0⟩)

/-- C5 counterexample — with TRAVEL_PER_REV_CM = 0, init succeeds (no
fatal configuration failure before a motion call), and the condition
surfaces during motion instead: control's move_to_channel(3) raises
ValueError there, while control_2's translator silently computes 1900
steps from the fallback travel. -/
theorem travel_validation_not_at_init :
    initStepper badTravelConfig true = .ok repoPins ∧
    Control.moveToChannel badTravelConfig repoPins lvInactive 3
        ⟨[], false, false⟩
      = ([], .error "TRAVEL_PER_REV_CM must be defined and > 0 in config_2.py") ∧
    Control2.channelToSteps badTravelConfig 3 = 1900 := by
  refine ⟨by simp [initStepper, cfgPins, badTravelConfig, repoConfig, repoPins],
    ?_, ?_⟩
  · simp [Control.moveToChannel, Control.stepsForDistanceCm, badTravelConfig,
      repoConfig]
  · rw [Control2.channelToSteps, Control2.stepsForDistanceCm]
    have hd : Control2.channelDistanceCm badTravelConfig 3 = 38 := by
      norm_num [Control2.channelDistanceCm, badTravelConfig, repoConfig]
    have he : Control2.effectiveTravelPerRev badTravelConfig = 4 := by
      norm_num [Control2.effectiveTravelPerRev, badTravelConfig, repoConfig]
    have hs : Control2.effectiveStepsPerRev badTravelConfig = 200 := by
      norm_num [Control2.effectiveStepsPerRev, badTravelConfig, repoConfig]
    rw [hd, he, hs]
    have hq : (38 : ℚ) / 4 * ((200 : ℤ) : ℚ) = ((1900 : ℤ) : ℚ) := by norm_num
    rw [hq, pyRound_intCast]

/-- C6 — channel-to-steps monotonicity: with non-negative channel spacing,
positive effective travel-per-revolution and non-negative effective
steps-per-revolution, the step count move_to_channel computes is
non-decreasing in the channel for channels ≥ 1, and channel 1 maps to
exactly 0 steps. -/
theorem channel_steps_monotone (cfg : StepperConfig)
    (hsp : 0 ≤ cfg.spacing) (ht : 0 < Control2.effectiveTravelPerRev cfg)
    (hr : 0 ≤ Control2.effectiveStepsPerRev cfg) :
    (∀ m n : ℤ, 1 ≤ m → m ≤ n →
      Control2.channelToSteps cfg m ≤ Control2.channelToSteps cfg n) ∧
    Control2.channelToSteps cfg 1 = 0 := by
  constructor
  · intro m n hm hmn
    apply pyRound_mono
    have hd : Control2.channelDistanceCm cfg m
        ≤ Control2.channelDistanceCm cfg n := by
      unfold Control2.channelDistanceCm
      have hc : ((max 0 (m - 1) : ℤ) : ℚ) ≤ ((max 0 (n - 1) : ℤ) : ℚ) := by
        exact_mod_cast (by omega : (max 0 (m - 1) : ℤ) ≤ max 0 (n - 1))
      exact mul_le_mul_of_nonneg_left hc hsp
    have hrr : (0 : ℚ) ≤ (Control2.effectiveStepsPerRev cfg : ℚ) := by
      exact_mod_cast hr
    exact mul_le_mul_of_nonneg_right ((div_le_div_iff_of_pos_right ht).mpr hd) hrr
  · unfold Control2.channelToSteps Control2.stepsForDistanceCm
      Control2.channelDistanceCm
    norm_num [pyRound_zero]

/-- Witness for `channel_steps_monotone` at the repository config. -/
theorem channel_steps_monotone_witness :
    Control2.channelToSteps repoConfig 2 ≤ Control2.channelToSteps repoConfig 5 ∧
    Control2.channelToSteps repoConfig 1 = 0 :=
  have h := channel_steps_monotone repoConfig (by norm_num [repoConfig])
    (by norm_num [Control2.effectiveTravelPerRev, repoConfig])
    (by norm_num [Control2.effectiveStepsPerRev, repoConfig])
  ⟨h.1 2 5 (by norm_num) (by norm_num), h.2⟩

/-- C7 — move_back geometry and direction: for channels n ≥ 1 the return
distance is the forward distance spacing × (n − 1) minus the fixed 5 cm
clearance margin, floored at zero; move_back(1) computes zero distance
(not a negative one); and the step count move_back passes to move_steps —
the negation of the rounded return steps — is always ≤ 0, so it only ever
commands travel toward home. -/
theorem move_back_clearance_and_toward_home (cfg : StepperConfig) (c : Pins)
    (pol : ℤ) (sc : Scenario)
    (ht : 0 < Control2.effectiveTravelPerRev cfg)
    (hr : 0 ≤ Control2.effectiveStepsPerRev cfg) :
    (∀ n : ℤ, 1 ≤ n → Control2.moveBackDistanceCm cfg n
        = max 0 (cfg.spacing * ((n : ℚ) - 1) - 5)) ∧
    Control2.moveBackDistanceCm cfg 1 = 0 ∧
    (∀ n : ℤ, -(Control2.channelToReturnSteps cfg n) ≤ 0) ∧
    (∀ n : ℤ, Control2.moveBack cfg c pol n sc
        = Control2.moveSteps c pol (-(Control2.channelToReturnSteps cfg n))
            cfg.stepDelay sc) := by
  refine ⟨?_, ?_, ?_, fun n => rfl⟩
  · intro n hn
    unfold Control2.moveBackDistanceCm
    have hmax : (max 0 (n - 1) : ℤ) = n - 1 := by omega
    rw [hmax]
    push_cast
    ring_nf
  · norm_num [Control2.moveBackDistanceCm]
  · intro n
    have hd : 0 ≤ Control2.moveBackDistanceCm cfg n := le_max_left 0 _
    have hq : 0 ≤ Control2.moveBackDistanceCm cfg n
        / Control2.effectiveTravelPerRev cfg
        * (Control2.effectiveStepsPerRev cfg : ℚ) :=
      mul_nonneg (div_nonneg hd ht.le) (by exact_mod_cast hr)
    have := pyRound_nonneg hq
    unfold Control2.channelToReturnSteps Control2.stepsForDistanceCm
    omega

/-- Witness for `move_back_clearance_and_toward_home` at the repository
config, channel 3. -/
theorem move_back_clearance_and_toward_home_witness :
    Control2.moveBackDistanceCm repoConfig 3
      = max 0 (repoConfig.spacing * ((3 : ℚ) - 1) - 5) ∧
    Control2.moveBackDistanceCm repoConfig 1 = 0 ∧
    -(Control2.channelToReturnSteps repoConfig 3) ≤ 0 :=
  have h := move_back_clearance_and_toward_home repoConfig repoPins 1
    ⟨[], false, false⟩
    (by norm_num [Control2.effectiveTravelPerRev, repoConfig])
    (by norm_num [Control2.effectiveStepsPerRev, repoConfig])
  ⟨h.1 3 (by norm_num), h.2.1, h.2.2.1 3⟩

/-- C8 — build_period clamps the HIGH (and LOW) half-phase so it is never
shorter than the 2 µs driver minimum: the per-phase duration of both
pulses of the wave is max(2, round(half_period × 10⁶)) µs, and the
effective frequency the caller logs/uses (`freq_exact`) equals
1 / (2 × clamped-half-period-in-seconds).  At a requested half-period of
0.1 µs the clamp engages: the effective frequency is 250 kHz, not the
5 MHz that 1 / (2 × requested) would give. -/
theorem build_period_clamps_and_freq (stepPin : ℕ) (hp : ℚ) :
    (buildPeriodWave stepPin hp).2 = max 2 (pyRound (hp * 1000000)) ∧
    (buildPeriodWave stepPin hp).1
      = [⟨2 ^ stepPin, 0, (buildPeriodWave stepPin hp).2⟩,
         ⟨0, 2 ^ stepPin, (buildPeriodWave stepPin hp).2⟩] ∧
    freqExact hp
      = 1 / (2 * (((buildPeriodWave stepPin hp).2 : ℚ) / 1000000)) ∧
    freqExact (1/10000000) = 250000 ∧
    (1 : ℚ) / (2 * (1/10000000)) = 5000000 := by
  have hle : (2 : ℤ) ≤ clampedHalfPeriodUs hp := le_max_left _ _
  have hpos : (0 : ℚ) < ((clampedHalfPeriodUs hp : ℤ) : ℚ) := by
    exact_mod_cast lt_of_lt_of_le (by norm_num) hle
  refine ⟨rfl, rfl, ?_, ?_, by norm_num⟩
  · show (1000000 : ℚ) / (2 * (clampedHalfPeriodUs hp : ℚ))
      = 1 / (2 * ((clampedHalfPeriodUs hp : ℚ) / 1000000))
    field_simp
  · have h1 : clampedHalfPeriodUs (1/10000000) = 2 := by
      have hr : pyRound ((1 : ℚ)/10000000 * 1000000) = 0 := by
        have : (1 : ℚ)/10000000 * 1000000 = 1/10 := by norm_num
        rw [this, pyRound]
        norm_num
      rw [clampedHalfPeriodUs, hr]; norm_num
    show (1000000 : ℚ) / (2 * ((clampedHalfPeriodUs (1/10000000) : ℤ) : ℚ))
      = 250000
    rw [h1]
    norm_num

/-- C9 — the wave built by a control_2 move_steps or home call is deleted
exactly once before the call returns, on every exit path: normal
completion, stop by a switch-trip callback, wave-creation failure (no
handle obtained, none deleted — the RuntimeError propagates before the
try/finally), and external interruption during the wait (the finally
block still deletes).  In every trace the successful wave_create calls
and the wave_delete calls balance, and never exceed one. -/
theorem wave_deleted_exactly_once (c : Pins) (pol steps : ℤ) (d : ℚ)
    (sc : Scenario) :
    ((Control2.moveSteps c pol steps d sc).1.count (HwOp.waveCreate true)
        = (Control2.moveSteps c pol steps d sc).1.count HwOp.waveDelete ∧
      (Control2.moveSteps c pol steps d sc).1.count HwOp.waveDelete ≤ 1) ∧
    ∀ tr res, Control2.home c pol d sc = some (tr, res) →
      tr.count (HwOp.waveCreate true) = tr.count HwOp.waveDelete ∧
      tr.count HwOp.waveDelete ≤ 1 := by
  constructor
  · unfold Control2.moveSteps
    split_ifs
    all_goals simp_all [List.count_append, List.count_cons]
    all_goals split_ifs
    all_goals simp_all [List.count_append, List.count_cons]
  · intro tr res h
    unfold Control2.home at h
    dsimp only at h
    split_ifs at h
    all_goals
      rw [Option.some_inj, Prod.ext_iff] at h
      obtain ⟨h1, -⟩ := h
      dsimp only at h1
      subst h1
      simp_all [List.count_append, List.count_cons]

/-- The trace of a control_2 home run (HOME_STEP_DELAY_S = 0.005) with
both switches inactive that ends with a Left-switch trip. -/
def control2HomeTraceLeftTrip : List HwOp :=
  [.write 5 1, .installCallbacks, .waveClear,
   .waveAddGeneric [⟨64, 0, 5000⟩, ⟨0, 64, 5000⟩], .waveCreate true,
   .waveSendRepeat, .clearCallbacks, .waveDelete]

/-- Witness for `wave_deleted_exactly_once`: the trace of a Left-trip home
run balances its wave_create and wave_delete calls. -/
theorem wave_deleted_exactly_once_witness :
    control2HomeTraceLeftTrip.count (HwOp.waveCreate true)
      = control2HomeTraceLeftTrip.count HwOp.waveDelete ∧
    control2HomeTraceLeftTrip.count HwOp.waveDelete ≤ 1 :=
  (wave_deleted_exactly_once repoPins 1 0 (5/1000)
      ⟨[(Side.left, 0)], false, false⟩).2
    control2HomeTraceLeftTrip (.ok ())
    (by simp [Control2.home, repoPins, runCallbacks, armedSides, cbFire,
      initialCbState, Control2.setDirLogical, buildPeriodWave,
      clampedHalfPeriodUs_homeDelay, control2HomeTraceLeftTrip])

/-- C10 — zero steps is a hardware-free no-op returning ok: move_steps(0,·)
returns {ok, None} with an empty hardware trace — before any direction-pin
write, callback installation, or waveform construction; and for every
channel n ≤ 1, move_to_channel clamps channel − 1 at zero, computes zero
steps, and is the same hardware-free no-op. -/
theorem zero_steps_noop (c : Pins) (pol : ℤ) (d : ℚ) (sc : Scenario)
    (cfg : StepperConfig) (ht : 0 < Control2.effectiveTravelPerRev cfg)
    (n : ℤ) (hn : n ≤ 1) :
    Control2.moveSteps c pol 0 d sc = ([], .ok ⟨.ok, none⟩) ∧
    (max 0 (n - 1) : ℤ) = 0 ∧
    Control2.channelToSteps cfg n = 0 ∧
    Control2.moveToChannel cfg c pol n sc = ([], .ok ⟨.ok, none⟩) := by
  have hmax : (max 0 (n - 1) : ℤ) = 0 := by omega
  have hne : Control2.effectiveTravelPerRev cfg ≠ 0 := ne_of_gt ht
  have hsteps : Control2.channelToSteps cfg n = 0 := by
    unfold Control2.channelToSteps Control2.stepsForDistanceCm
      Control2.channelDistanceCm
    rw [hmax]
    norm_num [pyRound_zero]
  refine ⟨by simp [Control2.moveSteps], hmax, hsteps, ?_⟩
  rw [Control2.moveToChannel, hsteps]
  simp [Control2.moveSteps]

/-- Witness for `zero_steps_noop` at the repository config, channel 1. -/
theorem zero_steps_noop_witness :
    Control2.moveSteps repoPins 1 0 (8/10000) ⟨[], false, false⟩
      = ([], .ok ⟨.ok, none⟩) ∧
    (max 0 ((1 : ℤ) - 1) : ℤ) = 0 ∧
    Control2.channelToSteps repoConfig 1 = 0 ∧
    Control2.moveToChannel repoConfig repoPins 1 1 ⟨[], false, false⟩
      = ([], .ok ⟨.ok, none⟩) :=
  zero_steps_noop repoPins 1 (8/10000) ⟨[], false, false⟩ repoConfig
    (by norm_num [Control2.effectiveTravelPerRev, repoConfig]) 1 (le_refl 1)
